import Mathlib

/-!
Shallow embedding of the ESG metric aggregation and incentive
eligibility/valuation engine of `src/esg_incentive_tracker.py`.

Numeric values (Python `float` and `Decimal`) are modelled as `ℚ`;
calendar dates are modelled as `ℕ` in the form YYYYMMDD (this encoding is
strictly monotone in the calendar order, so date comparisons agree);
Python dictionary reads `d.get(k)` / `d.get(k, default)` are modelled by
`Option` fields with `Option.getD`; an uncaught Python exception
(ZeroDivisionError, AttributeError) is modelled by an operation
returning `none`.
-/

namespace ESGTracker

attribute [local semireducible] Rat.add Rat.mul Rat.inv Rat.sub Rat.ofScientific

/-- Embeds the `ESGCategory` enum. -/
inductive ESGCategory where
  | environmental
  | social
  | governance
deriving DecidableEq, Repr

/-- Embeds the `IncentiveType` enum. -/
inductive IncentiveType where
  | federal_tax_credit
  | state_tax_credit
  | local_rebate
  | utility_rebate
  | grant
  | low_interest_loan
  | pace_financing
deriving DecidableEq, Repr

/-- Embeds the `ESGMetric` dataclass. -/
structure ESGMetric where
  category : ESGCategory
  metric_name : String
  value : ℚ
  unit : String
  timestamp : ℕ
  project_id : String
  verification_method : String
  third_party_verified : Bool
  carbon_offset_tons : Option ℚ
deriving DecidableEq, Repr

/-- Embeds the `IncentiveOpportunity` dataclass. -/
structure IncentiveOpportunity where
  incentive_id : String
  name : String
  type : IncentiveType
  amount : ℚ
  percentage : Option ℚ
  max_amount : Option ℚ
  state : String
  locality : Option String
  utility_provider : Option String
  eligibility_criteria : List String
  application_deadline : Option ℕ
  project_start_deadline : Option ℕ
  project_completion_deadline : Option ℕ
  requires_pre_approval : Bool
  stacking_allowed : Bool
  clawback_provisions : List String
deriving DecidableEq, Repr

/-- Embeds the `ESGScore` dataclass (timestamp omitted: it is wall-clock
metadata never read by any computation). -/
structure ESGScore where
  environmental_score : ℚ
  social_score : ℚ
  governance_score : ℚ
  overall_score : ℚ
  peer_percentile : ℚ
  certification_level : String
deriving DecidableEq, Repr

/-- Embeds the loosely keyed `project_data` dictionary: each key the engine
ever reads becomes an `Option` field, `none` meaning the key is absent. -/
structure ProjectData where
  project_id : String
  project_type : Option String
  building_type : Option String
  state : Option String
  city : Option String
  utility_provider : Option String
  project_cost : Option ℚ
  project_size : Option ℚ
  system_capacity_kw : Option ℚ
  annual_production_kwh : Option ℚ
  square_footage : Option ℚ
  baseline_energy_usage : Option ℚ
  projected_energy_usage : Option ℚ
  total_workers : Option ℚ
  local_workers : Option ℚ
  total_hours : Option ℚ
  incidents : Option ℚ
  near_misses : Option ℚ
deriving DecidableEq, Repr

/-- String helper: does `needle` match at the head of `hay`? -/
def firstMatches : List Char → List Char → Bool
  | [], _ => true
  | _ :: _, [] => false
  | a :: as, b :: bs => (a == b) && firstMatches as bs

/-- String helper: does `needle` occur contiguously anywhere in `hay`? -/
def hasSubAux (needle : List Char) : List Char → Bool
  | [] => firstMatches needle []
  | b :: bs => firstMatches needle (b :: bs) || hasSubAux needle bs

/-- Embeds the Python `needle in hay` substring test. -/
def strHasSub (hay needle : String) : Bool :=
  hasSubAux needle.toList hay.toList

/-- Embeds `str.lower()` (character-wise lowering; the strings involved are
ASCII). -/
def strToLower (s : String) : String :=
  String.mk (s.toList.map Char.toLower)

/-- Embeds the Python replacement of each space by an underscore. -/
def replSpace (s : String) : String :=
  String.mk (s.toList.map (fun c => if c = ' ' then '_' else c))

/-- Embeds the Python removal of every space and ampersand character. -/
def stripSpAmp (s : String) : String :=
  String.mk (s.toList.filter (fun c => !(c == ' ' || c == '&')))

/-- Embeds `EnvironmentalTracker.track_energy_efficiency` (lines 78-112).
The Python body divides by `energy_usage_baseline`; a zero baseline raises
`ZeroDivisionError`, modelled by `none`. -/
def track_energy_efficiency (project_id : String) (now : ℕ) (_building_type : String)
    (square_footage energy_usage_baseline energy_usage_actual : ℚ) : Option ESGMetric :=
  if energy_usage_baseline = 0 then none
  else
    some { category := .environmental
           metric_name := "energy_efficiency_improvement"
           value := (energy_usage_baseline - energy_usage_actual) / energy_usage_baseline * 100
           unit := "percentage"
           timestamp := now
           project_id := project_id
           verification_method := "energy_modeling_software"
           third_party_verified := true
           carbon_offset_tons :=
             some ((energy_usage_baseline - energy_usage_actual) * (7/10000) * square_footage / 1000) }

/-- Embeds `EnvironmentalTracker.track_renewable_energy` (lines 114-134); total. -/
def track_renewable_energy (project_id : String) (now : ℕ) (system_type : String)
    (capacity_kw annual_production_kwh : ℚ) : ESGMetric :=
  { category := .environmental
    metric_name := "renewable_energy_" ++ system_type
    value := capacity_kw
    unit := "kW_capacity"
    timestamp := now
    project_id := project_id
    verification_method := "utility_interconnection_agreement"
    third_party_verified := true
    carbon_offset_tons := some (annual_production_kwh * (7/10000)) }

/-- Embeds `EnvironmentalTracker.track_waste_diversion` (lines 157-175).
`diversion_rate = (diverted_waste / total_waste) * 100` raises
`ZeroDivisionError` when `total_waste = 0`, modelled by `none`. -/
def track_waste_diversion (project_id : String) (now : ℕ)
    (total_waste diverted_waste : ℚ) : Option ESGMetric :=
  if total_waste = 0 then none
  else
    some { category := .environmental
           metric_name := "waste_diversion_rate"
           value := diverted_waste / total_waste * 100
           unit := "percentage"
           timestamp := now
           project_id := project_id
           verification_method := "waste_management_receipts"
           third_party_verified := true
           carbon_offset_tons := none }

/-- Embeds `SocialImpactTracker.track_local_hiring` (lines 183-200).
`(local_workers / total_workers) * 100` raises `ZeroDivisionError` when
`total_workers = 0`, modelled by `none`. -/
def track_local_hiring (project_id : String) (now : ℕ)
    (total_workers local_workers : ℚ) : Option ESGMetric :=
  if total_workers = 0 then none
  else
    some { category := .social
           metric_name := "local_hire_rate"
           value := local_workers / total_workers * 100
           unit := "percentage"
           timestamp := now
           project_id := project_id
           verification_method := "payroll_address_verification"
           third_party_verified := false
           carbon_offset_tons := none }

/-- Embeds `SocialImpactTracker.track_safety_metrics` (lines 267-298):
records the OSHA incident-rate metric and the near-miss-rate metric;
division by `total_hours = 0` raises, modelled by `none`. -/
def track_safety_metrics (project_id : String) (now : ℕ)
    (total_hours incidents near_misses : ℚ) : Option (List ESGMetric) :=
  if total_hours = 0 then none
  else
    some [{ category := .social
            metric_name := "osha_incident_rate"
            value := incidents / total_hours * 200000
            unit := "incidents_per_200k_hours"
            timestamp := now
            project_id := project_id
            verification_method := "osha_logs"
            third_party_verified := false
            carbon_offset_tons := none },
          { category := .social
            metric_name := "near_miss_rate"
            value := near_misses / total_hours * 200000
            unit := "near_misses_per_200k_hours"
            timestamp := now
            project_id := project_id
            verification_method := "safety_reporting_system"
            third_party_verified := false
            carbon_offset_tons := none }]

/-- Embeds the per-metric increment of
`ESGScoringEngine._calculate_environmental_score` (lines 765-779): the
`elif` chain over `metric_name` plus the third-party-verification bonus. -/
def envIncrement (m : ESGMetric) : ℚ :=
  (if m.metric_name = "energy_efficiency_improvement" then min 20 (m.value * (1/2))
   else if strHasSub m.metric_name "renewable_energy" then 15
   else if m.metric_name = "water_efficiency_improvement" then min 10 (m.value * (3/10))
   else if m.metric_name = "waste_diversion_rate" then min 15 (m.value * (1/5))
   else 0)
  + (if m.third_party_verified then 2 else 0)

/-- Embeds `ESGScoringEngine._calculate_environmental_score` (lines 758-781):
baseline 50, accumulate increments, clamp above at 100 (`min(100.0, score)`). -/
def calculate_environmental_score (metrics : List ESGMetric) : ℚ :=
  if metrics.isEmpty then 50
  else min 100 (50 + (metrics.map envIncrement).sum)

/-- Embeds the per-metric increment of
`ESGScoringEngine._calculate_social_score` (lines 790-803). -/
def socialIncrement (m : ESGMetric) : ℚ :=
  if m.metric_name = "local_hire_rate" then min 15 (m.value * (3/10))
  else if strHasSub m.metric_name "hire_rate" then min 10 (m.value * (1/5))
  else if m.metric_name = "apprenticeship_rate" then min 10 (m.value * (2/5))
  else if m.metric_name = "osha_incident_rate" then
    if m.value < 2 then 15 else if m.value < 4 then 5 else 0
  else 0

/-- Embeds `ESGScoringEngine._calculate_social_score` (lines 783-805). -/
def calculate_social_score (metrics : List ESGMetric) : ℚ :=
  if metrics.isEmpty then 50
  else min 100 (50 + (metrics.map socialIncrement).sum)

/-- Embeds the per-metric increment of
`ESGScoringEngine._calculate_governance_score` (lines 814-819). -/
def govIncrement (m : ESGMetric) : ℚ :=
  if strHasSub m.metric_name "compliance" then min 15 (m.value / 100 * 15)
  else if m.metric_name = "certification_count" then min 10 (m.value * 3)
  else 0

/-- Embeds `ESGScoringEngine._calculate_governance_score` (lines 807-821). -/
def calculate_governance_score (metrics : List ESGMetric) : ℚ :=
  if metrics.isEmpty then 50
  else min 100 (50 + (metrics.map govIncrement).sum)

/-- Embeds the certification-level branch of
`ESGScoringEngine.calculate_esg_score` (lines 737-746). -/
def certLevelOf (overall_score : ℚ) : String :=
  if overall_score ≥ 90 then "Platinum"
  else if overall_score ≥ 80 then "Gold"
  else if overall_score ≥ 70 then "Silver"
  else if overall_score ≥ 60 then "Bronze"
  else "Standard"

/-- Embeds `ESGScoringEngine.calculate_esg_score` (lines 717-756): the three
tracker logs are passed explicitly; metrics are filtered by `project_id`,
reduced to category scores, combined with weights 0.40/0.35/0.25, and the
mock peer percentile `min(95, max(5, overall + overall*0.1))` and the
certification level are attached. -/
def calculate_esg_score (envLog socialLog govLog : List ESGMetric)
    (project_id : String) : ESGScore :=
  let env_score := calculate_environmental_score
    (envLog.filter (fun m => m.project_id == project_id))
  let social_score := calculate_social_score
    (socialLog.filter (fun m => m.project_id == project_id))
  let gov_score := calculate_governance_score
    (govLog.filter (fun m => m.project_id == project_id))
  let overall_score := env_score * (2/5) + social_score * (7/20) + gov_score * (1/4)
  { environmental_score := env_score
    social_score := social_score
    governance_score := gov_score
    overall_score := overall_score
    peer_percentile := min 95 (max 5 (overall_score + overall_score * (1/10)))
    certification_level := certLevelOf overall_score }

/-- Python truthiness of an optional number: truthy iff present and nonzero. -/
def optTruthy (o : Option ℚ) : Bool :=
  match o with
  | none => false
  | some x => decide (x ≠ 0)

/-- Embeds the criterion test inside
`IncentiveCalculationEngine._check_eligibility` (lines 669-681): the `elif`
chain matching one criterion string against the project attributes. -/
def criterionMet (pd : ProjectData) (criterion : String) : Bool :=
  let criterion_lower := strToLower criterion
  let project_type := strToLower (pd.project_type.getD "")
  if strHasSub criterion_lower "solar" && strHasSub project_type "solar" then true
  else if strHasSub criterion_lower "wind" && strHasSub project_type "wind" then true
  else if strHasSub criterion_lower "energy efficiency" && strHasSub project_type "efficiency" then true
  else if strHasSub criterion_lower "commercial" && pd.building_type == some "commercial" then true
  else if strHasSub criterion_lower "residential" && pd.building_type == some "residential" then true
  else false

/-- Embeds `if incentive.X_deadline and current_date > incentive.X_deadline`
(lines 685-688): a `date` object is always truthy, so only presence and the
comparison matter. -/
def pastDeadline (deadline : Option ℕ) (current_date : ℕ) : Bool :=
  match deadline with
  | none => false
  | some d => decide (current_date > d)

/-- Embeds `IncentiveCalculationEngine._check_eligibility` (lines 661-691):
count matched criteria, reject on a passed application or
project-completion deadline, else eligible iff `criteria_met > 0`. -/
def check_eligibility (incentive : IncentiveOpportunity) (pd : ProjectData)
    (current_date : ℕ) : Bool :=
  let criteria_met := incentive.eligibility_criteria.countP (criterionMet pd)
  if pastDeadline incentive.application_deadline current_date then false
  else if pastDeadline incentive.project_completion_deadline current_date then false
  else decide (criteria_met > 0)

/-- Embeds `IncentiveCalculationEngine.calculate_incentive_value`
(lines 693-707).  The branches are selected by Python truthiness:
`if incentive.percentage`, `if incentive.max_amount`,
`elif project_size and incentive.amount`; the final branch
`incentive.amount or Decimal(0)` equals `incentive.amount` as a value. -/
def calculate_incentive_value (incentive : IncentiveOpportunity)
    (project_cost : ℚ) (project_size : Option ℚ) : ℚ :=
  if optTruthy incentive.percentage then
    let value := project_cost * (incentive.percentage.getD 0 / 100)
    if optTruthy incentive.max_amount then min value (incentive.max_amount.getD 0)
    else value
  else if optTruthy project_size && decide (incentive.amount ≠ 0) then
    project_size.getD 0 * incentive.amount
  else incentive.amount

/-- Dictionary-of-lists lookup: `dict[key]` when `key in dict`, else the
loop body never runs (empty contribution). -/
def lookupIncentives (table : List (String × List IncentiveOpportunity))
    (key : String) : List IncentiveOpportunity :=
  match table.find? (fun kv => kv.1 == key) with
  | some kv => kv.2
  | none => []

/-- The four incentive tables built by `IncentiveCalculationEngine.__init__`. -/
structure Catalog where
  federal_incentives : List IncentiveOpportunity
  state_incentives : List (String × List IncentiveOpportunity)
  local_incentives : List (String × List IncentiveOpportunity)
  utility_incentives : List (String × List IncentiveOpportunity)

/-- Embeds `IncentiveCalculationEngine.calculate_available_incentives`
(lines 628-659).  When the optional state entry of the project data is absent the locality
key construction evaluates `state.lower()` on `None` and raises
`AttributeError`; modelled by `none`. -/
def calculate_available_incentives (cat : Catalog) (pd : ProjectData)
    (current_date : ℕ) : Option (List IncentiveOpportunity) :=
  match pd.state with
  | none => none
  | some st =>
    let fed := cat.federal_incentives.filter
      (fun i => check_eligibility i pd current_date)
    let sts := (lookupIncentives cat.state_incentives st).filter
      (fun i => check_eligibility i pd current_date)
    let locality_key := replSpace (strToLower (pd.city.getD "")) ++ "_" ++ strToLower st
    let locs := (lookupIncentives cat.local_incentives locality_key).filter
      (fun i => check_eligibility i pd current_date)
    let utility := stripSpAmp (strToLower (pd.utility_provider.getD ""))
    let utils := (lookupIncentives cat.utility_incentives utility).filter
      (fun i => check_eligibility i pd current_date)
    some (fed ++ sts ++ locs ++ utils)

/-- Embeds `_load_federal_incentives` (lines 361-451). -/
def federalIncentives : List IncentiveOpportunity :=
  [{ incentive_id := "ITC_SOLAR_2024"
     name := "Solar Investment Tax Credit"
     type := .federal_tax_credit
     amount := 0
     percentage := some 30
     max_amount := none
     state := "ALL"
     locality := none
     utility_provider := none
     eligibility_criteria :=
       ["Solar PV system installation",
        "System must be placed in service by Dec 31, 2032",
        "System must meet IRS guidelines"]
     application_deadline := none
     project_start_deadline := some 20321231
     project_completion_deadline := some 20321231
     requires_pre_approval := false
     stacking_allowed := true
     clawback_provisions := ["System must remain in service for 5 years"] },
   { incentive_id := "PTC_WIND_2024"
     name := "Wind Production Tax Credit"
     type := .federal_tax_credit
     amount := 28
     percentage := none
     max_amount := none
     state := "ALL"
     locality := none
     utility_provider := none
     eligibility_criteria :=
       ["Wind energy facility",
        "Construction begins before Jan 1, 2025"]
     application_deadline := none
     project_start_deadline := some 20241231
     project_completion_deadline := none
     requires_pre_approval := false
     stacking_allowed := true
     clawback_provisions := [] },
   { incentive_id := "179D_DEDUCTION_2024"
     name := "179D Energy Efficient Commercial Buildings Deduction"
     type := .federal_tax_credit
     amount := 5.36
     percentage := none
     max_amount := none
     state := "ALL"
     locality := none
     utility_provider := none
     eligibility_criteria :=
       ["Commercial building",
        "50%+ energy reduction vs ASHRAE standard",
        "Prevailing wage requirements met"]
     application_deadline := none
     project_start_deadline := none
     project_completion_deadline := none
     requires_pre_approval := false
     stacking_allowed := true
     clawback_provisions := [] },
   { incentive_id := "45L_CREDIT_2024"
     name := "45L New Energy Efficient Home Credit"
     type := .federal_tax_credit
     amount := 5000
     percentage := none
     max_amount := none
     state := "ALL"
     locality := none
     utility_provider := none
     eligibility_criteria :=
       ["Qualified new home",
        "Energy Star or equivalent certification",
        "Meets prevailing wage requirements"]
     application_deadline := none
     project_start_deadline := none
     project_completion_deadline := some 20321231
     requires_pre_approval := false
     stacking_allowed := true
     clawback_provisions := [] }]

/-- Embeds `_load_state_incentives` (lines 453-570). -/
def stateIncentives : List (String × List IncentiveOpportunity) :=
  [("FL",
    [{ incentive_id := "FL_SOLAR_REBATE_2024"
       name := "Florida Solar Rebate Program"
       type := .state_tax_credit
       amount := 0
       percentage := none
       max_amount := some 20000
       state := "FL"
       locality := none
       utility_provider := none
       eligibility_criteria :=
         ["Florida resident", "Solar PV system", "System size 2kW minimum"]
       application_deadline := some 20241231
       project_start_deadline := none
       project_completion_deadline := none
       requires_pre_approval := true
       stacking_allowed := true
       clawback_provisions := [] },
     { incentive_id := "FL_PACE_2024"
       name := "Florida PACE Financing"
       type := .pace_financing
       amount := 0
       percentage := none
       max_amount := some 1000000
       state := "FL"
       locality := none
       utility_provider := none
       eligibility_criteria :=
         ["Commercial or industrial property",
          "Energy efficiency or renewable energy project"]
       application_deadline := none
       project_start_deadline := none
       project_completion_deadline := none
       requires_pre_approval := true
       stacking_allowed := true
       clawback_provisions := [] }]),
   ("TX",
    [{ incentive_id := "TX_SOLAR_EXEMPTION_2024"
       name := "Texas Solar Property Tax Exemption"
       type := .state_tax_credit
       amount := 0
       percentage := some 100
       max_amount := none
       state := "TX"
       locality := none
       utility_provider := none
       eligibility_criteria :=
         ["Solar energy device",
          "Installed on or in connection with dwelling"]
       application_deadline := none
       project_start_deadline := none
       project_completion_deadline := none
       requires_pre_approval := false
       stacking_allowed := true
       clawback_provisions := [] }]),
   ("LA",
    [{ incentive_id := "LA_SOLAR_TAX_CREDIT_2024"
       name := "Louisiana Solar Tax Credit"
       type := .state_tax_credit
       amount := 0
       percentage := some 25
       max_amount := some 12500
       state := "LA"
       locality := none
       utility_provider := none
       eligibility_criteria :=
         ["Louisiana resident", "Solar energy system for residence"]
       application_deadline := none
       project_start_deadline := none
       project_completion_deadline := some 20251231
       requires_pre_approval := false
       stacking_allowed := true
       clawback_provisions := [] }]),
   ("NY",
    [{ incentive_id := "NY_SOLAR_TAX_CREDIT_2024"
       name := "New York State Solar Tax Credit"
       type := .state_tax_credit
       amount := 0
       percentage := some 25
       max_amount := some 5000
       state := "NY"
       locality := none
       utility_provider := none
       eligibility_criteria :=
         ["New York State resident", "Solar electric generating equipment"]
       application_deadline := none
       project_start_deadline := none
       project_completion_deadline := some 20251231
       requires_pre_approval := false
       stacking_allowed := true
       clawback_provisions := [] }])]

/-- Embeds `_load_local_incentives` (lines 572-598). -/
def localIncentives : List (String × List IncentiveOpportunity) :=
  [("miami_dade_fl",
    [{ incentive_id := "MIAMI_SOLAR_REBATE_2024"
       name := "Miami-Dade Solar Rebate"
       type := .local_rebate
       amount := 1000
       percentage := none
       max_amount := some 1000
       state := "FL"
       locality := some "Miami-Dade"
       utility_provider := none
       eligibility_criteria :=
         ["Miami-Dade County resident", "Solar PV installation"]
       application_deadline := some 20241231
       project_start_deadline := none
       project_completion_deadline := none
       requires_pre_approval := true
       stacking_allowed := true
       clawback_provisions := [] }])]

/-- Embeds `_load_utility_incentives` (lines 600-626). -/
def utilityIncentives : List (String × List IncentiveOpportunity) :=
  [("fpl",
    [{ incentive_id := "FPL_SOLAR_REBATE_2024"
       name := "FPL SolarTogether Program"
       type := .utility_rebate
       amount := 0.03
       percentage := none
       max_amount := none
       state := "FL"
       locality := none
       utility_provider := some "Florida Power & Light"
       eligibility_criteria := ["FPL customer", "Community solar subscription"]
       application_deadline := none
       project_start_deadline := none
       project_completion_deadline := none
       requires_pre_approval := true
       stacking_allowed := true
       clawback_provisions := [] }])]

/-- The catalog built by `IncentiveCalculationEngine.__init__` (lines 355-359). -/
def theCatalog : Catalog :=
  { federal_incentives := federalIncentives
    state_incentives := stateIncentives
    local_incentives := localIncentives
    utility_incentives := utilityIncentives }

/-- One entry of the `available_incentives` list in the report dictionary
built by `process_project_esg_incentives` (lines 856-862). -/
structure IncentiveSummary where
  name : String
  type : IncentiveType
  value : ℚ
  requires_pre_approval : Bool
  application_deadline : Option ℕ
deriving DecidableEq, Repr

/-- The report dictionary returned by
`ESGIncentiveIntegrationEngine.process_project_esg_incentives`
(lines 866-880). -/
structure Report where
  project_id : String
  esg_score : ESGScore
  available_incentives : List IncentiveSummary
  total_incentive_value : ℚ
  net_project_cost : ℚ
  roi_improvement : ℚ
deriving DecidableEq, Repr

/-- Embeds `ESGIncentiveIntegrationEngine._track_project_metrics`
(lines 882-916): returns the environmental and social metrics recorded for
the project (the governance tracker is never written).  Any
`ZeroDivisionError` in a tracker call propagates as `none`. -/
def track_project_metrics (pd : ProjectData) (now : ℕ) :
    Option (List ESGMetric × List ESGMetric) := do
  let project_type := strToLower (pd.project_type.getD "")
  let envSolar :=
    if strHasSub project_type "solar" then
      [track_renewable_energy pd.project_id now "solar_pv"
        (pd.system_capacity_kw.getD 10) (pd.annual_production_kwh.getD 15000)]
    else []
  let envEff ←
    if strHasSub project_type "energy efficiency" then
      (track_energy_efficiency pd.project_id now (pd.building_type.getD "commercial")
        (pd.square_footage.getD 5000) (pd.baseline_energy_usage.getD 100000)
        (pd.projected_energy_usage.getD 70000)).map (fun m => [m])
    else some []
  let hiring ← track_local_hiring pd.project_id now
    (pd.total_workers.getD 10) (pd.local_workers.getD 8)
  let safety ← track_safety_metrics pd.project_id now
    (pd.total_hours.getD 2000) (pd.incidents.getD 0) (pd.near_misses.getD 2)
  some (envSolar ++ envEff, hiring :: safety)

/-- Embeds `ESGIncentiveIntegrationEngine.process_project_esg_incentives`
(lines 830-880) for a single invocation on a freshly constructed engine
(empty metric stores): track the derived metrics, score the project, find
and price the eligible incentives, and assemble the report.  `none` models
an uncaught exception in any step. -/
def process_project_esg_incentives (cat : Catalog) (pd : ProjectData)
    (current_date now : ℕ) : Option Report :=
  match track_project_metrics pd now with
  | none => none
  | some logs =>
    let esg_score := calculate_esg_score logs.1 logs.2 [] pd.project_id
    match calculate_available_incentives cat pd current_date with
    | none => none
    | some available =>
      let project_cost := pd.project_cost.getD 0
      let summaries := available.map (fun i =>
        { name := i.name
          type := i.type
          value := calculate_incentive_value i project_cost pd.project_size
          requires_pre_approval := i.requires_pre_approval
          application_deadline := i.application_deadline : IncentiveSummary })
      let total_incentive_value := (summaries.map IncentiveSummary.value).sum
      some { project_id := pd.project_id
             esg_score := esg_score
             available_incentives := summaries
             total_incentive_value := total_incentive_value
             net_project_cost := project_cost - total_incentive_value
             roi_improvement :=
               if project_cost > 0 then total_incentive_value / project_cost * 100
               else 0 }

/-- A project-data record with every optional key absent. -/
def emptyPD : ProjectData :=
  { project_id := "P1"
    project_type := none
    building_type := none
    state := none
    city := none
    utility_provider := none
    project_cost := none
    project_size := none
    system_capacity_kw := none
    annual_production_kwh := none
    square_footage := none
    baseline_energy_usage := none
    projected_energy_usage := none
    total_workers := none
    local_workers := none
    total_hours := none
    incidents := none
    near_misses := none }

/-- A minimal incentive record for building concrete test incentives. -/
def baseInc : IncentiveOpportunity :=
  { incentive_id := "TEST"
    name := "Test Incentive"
    type := .grant
    amount := 0
    percentage := none
    max_amount := none
    state := "ALL"
    locality := none
    utility_provider := none
    eligibility_criteria := []
    application_deadline := none
    project_start_deadline := none
    project_completion_deadline := none
    requires_pre_approval := false
    stacking_allowed := false
    clawback_provisions := [] }

/-- A solar project input (matches the residential example in the repository). -/
def pdSolar : ProjectData :=
  { emptyPD with
    project_type := some "residential solar installation"
    building_type := some "residential" }

/-- A wind-retrofit project input. -/
def pdWind : ProjectData :=
  { emptyPD with project_type := some "wind turbine retrofit" }

/-- An incentive whose sole criterion is the ITC solar criterion. -/
def solarCritInc : IncentiveOpportunity :=
  { baseInc with eligibility_criteria := ["Solar PV system installation"] }

/-- A solar-criterion incentive whose application deadline has passed
relative to the sample date 20251012. -/
def expiredInc : IncentiveOpportunity :=
  { solarCritInc with application_deadline := some 20240101 }

/-- A solar-criterion incentive whose project-start deadline has passed
relative to the sample date 20251012. -/
def startPastInc : IncentiveOpportunity :=
  { solarCritInc with project_start_deadline := some 20240101 }

/-- The federal solar ITC entry of the catalog (percentage 30, no cap). -/
def itcSolar : IncentiveOpportunity := federalIncentives.headD baseInc

/-- An incentive with percentage 100 and max_amount 5000. -/
def pct100Cap5000 : IncentiveOpportunity :=
  { baseInc with percentage := some 100, max_amount := some 5000 }

/-- An incentive whose `percentage` key is present but equal to 0, with a
flat amount of 28. -/
def incPctZero : IncentiveOpportunity :=
  { baseInc with percentage := some 0, amount := 28 }

/-- An incentive with a nonzero percentage but `max_amount` equal to 0. -/
def incCapZero : IncentiveOpportunity :=
  { baseInc with percentage := some 50, max_amount := some 0 }

/-- An environmental metric with a negative value, as produced by
`track_energy_efficiency` when actual usage exceeds the baseline. -/
def mNegEff : ESGMetric :=
  { category := .environmental
    metric_name := "energy_efficiency_improvement"
    value := -1000
    unit := "percentage"
    timestamp := 0
    project_id := "P1"
    verification_method := "energy_modeling_software"
    third_party_verified := false
    carbon_offset_tons := none }

/-- A project input with a state that matches no catalog key and a cost. -/
def pdCost : ProjectData :=
  { emptyPD with state := some "ZZ", project_cost := some 1000 }

/-- A placeholder report used only as the `Option.getD` default. -/
def dummyReport : Report :=
  { project_id := ""
    esg_score := { environmental_score := 0, social_score := 0, governance_score := 0,
                   overall_score := 0, peer_percentile := 0, certification_level := "" }
    available_incentives := []
    total_incentive_value := 0
    net_project_cost := 0
    roi_improvement := 0 }

/-- The report `process_project_esg_incentives` produces for `pdCost`. -/
def sampleReport : Report :=
  (process_project_esg_incentives theCatalog pdCost 20251012 0).getD dummyReport

/-- Claim C4: for every incentive whose deadlines do not reject it,
eligibility holds if and only if at least one criterion is counted as
matched (OR semantics); unmatched criteria never block eligibility. -/
theorem eligibility_or_semantics (inc : IncentiveOpportunity) (pd : ProjectData)
    (today : ℕ)
    (h1 : pastDeadline inc.application_deadline today = false)
    (h2 : pastDeadline inc.project_completion_deadline today = false) :
    check_eligibility inc pd today = true ↔
      0 < inc.eligibility_criteria.countP (criterionMet pd) := by
  simp [check_eligibility, h1, h2]

/-- Witness for C4: the sole-criterion "Solar PV system installation"
incentive is eligible for a solar project and ineligible for a wind
retrofit. -/
theorem eligibility_or_semantics_witness :
    check_eligibility solarCritInc pdSolar 20251012 = true ∧
    check_eligibility solarCritInc pdWind 20251012 = false := by
  constructor
  · exact (eligibility_or_semantics solarCritInc pdSolar 20251012 rfl rfl).2 (by decide)
  · have h := eligibility_or_semantics solarCritInc pdWind 20251012 rfl rfl
    cases hb : check_eligibility solarCritInc pdWind 20251012
    · rfl
    · exact absurd (h.1 hb) (by decide)

/-- Claim C5: a passed application deadline or a passed project-completion
deadline makes the incentive ineligible regardless of criteria matches. -/
theorem deadline_rejection (inc : IncentiveOpportunity) (pd : ProjectData)
    (today : ℕ)
    (h : pastDeadline inc.application_deadline today = true ∨
         pastDeadline inc.project_completion_deadline today = true) :
    check_eligibility inc pd today = false := by
  unfold check_eligibility
  rcases h with h | h
  · simp [h]
  · by_cases h2 : pastDeadline inc.application_deadline today = true <;> simp [h, h2]

/-- Witness for C5: an incentive with a passed application deadline is
ineligible even though its solar criterion matches the project. -/
theorem deadline_rejection_witness :
    check_eligibility expiredInc pdSolar 20251012 = false :=
  deadline_rejection expiredInc pdSolar 20251012 (Or.inl (by decide))

/-- Claim C9: eligibility never reads `project_start_deadline`; an
incentive whose start deadline is already past can still be eligible. -/
theorem start_deadline_irrelevant :
    (∀ (inc : IncentiveOpportunity) (pd : ProjectData) (today : ℕ) (d : Option ℕ),
      check_eligibility { inc with project_start_deadline := d } pd today =
        check_eligibility inc pd today) ∧
    (pastDeadline startPastInc.project_start_deadline 20251012 = true ∧
      check_eligibility startPastInc pdSolar 20251012 = true) :=
  ⟨fun _ _ _ _ => rfl, by decide, by decide⟩

/-- Witness for C9 at a concrete incentive and project. -/
theorem start_deadline_irrelevant_witness :
    check_eligibility { startPastInc with project_start_deadline := some 5 } pdSolar 20251012 =
      check_eligibility startPastInc pdSolar 20251012 :=
  start_deadline_irrelevant.1 startPastInc pdSolar 20251012 (some 5)

/-- Claim C7: certification tiers are inclusive lower bounds evaluated
highest-first: ≥90 Platinum, ≥80 Gold, ≥70 Silver, ≥60 Bronze, else
Standard. -/
theorem tier_thresholds (s : ℚ) :
    (90 ≤ s → certLevelOf s = "Platinum") ∧
    (80 ≤ s → s < 90 → certLevelOf s = "Gold") ∧
    (70 ≤ s → s < 80 → certLevelOf s = "Silver") ∧
    (60 ≤ s → s < 70 → certLevelOf s = "Bronze") ∧
    (s < 60 → certLevelOf s = "Standard") := by
  unfold certLevelOf
  refine ⟨?_, ?_, ?_, ?_, ?_⟩ <;> intros <;> split_ifs <;> first | rfl | linarith

/-- Witness for C7 at the boundary inputs of the spec. -/
theorem tier_thresholds_witness :
    certLevelOf 90 = "Platinum" ∧ certLevelOf 89.999 = "Gold" ∧
    certLevelOf 80 = "Gold" ∧ certLevelOf 70 = "Silver" ∧
    certLevelOf 60 = "Bronze" ∧ certLevelOf 59.999 = "Standard" :=
  ⟨(tier_thresholds 90).1 (by norm_num),
   (tier_thresholds 89.999).2.1 (by norm_num) (by norm_num),
   (tier_thresholds 80).2.1 (by norm_num) (by norm_num),
   (tier_thresholds 70).2.2.1 (by norm_num) (by norm_num),
   (tier_thresholds 60).2.2.2.1 (by norm_num) (by norm_num),
   (tier_thresholds 59.999).2.2.2.2 (by norm_num)⟩

/-- Claim C6: a project with no recorded metrics scores exactly 50 in each
category, 50 overall, and is certified "Standard". -/
theorem empty_log_baseline (envLog socialLog govLog : List ESGMetric) (pid : String)
    (h1 : envLog.filter (fun m => m.project_id == pid) = [])
    (h2 : socialLog.filter (fun m => m.project_id == pid) = [])
    (h3 : govLog.filter (fun m => m.project_id == pid) = []) :
    (calculate_esg_score envLog socialLog govLog pid).environmental_score = 50 ∧
    (calculate_esg_score envLog socialLog govLog pid).social_score = 50 ∧
    (calculate_esg_score envLog socialLog govLog pid).governance_score = 50 ∧
    (calculate_esg_score envLog socialLog govLog pid).overall_score = 50 ∧
    (calculate_esg_score envLog socialLog govLog pid).certification_level = "Standard" := by
  simp only [calculate_esg_score, h1, h2, h3]
  norm_num [calculate_environmental_score, calculate_social_score,
    calculate_governance_score, certLevelOf]

/-- Witness for C6 at empty logs. -/
theorem empty_log_baseline_witness :
    (calculate_esg_score [] [] [] "P1").environmental_score = 50 ∧
    (calculate_esg_score [] [] [] "P1").social_score = 50 ∧
    (calculate_esg_score [] [] [] "P1").governance_score = 50 ∧
    (calculate_esg_score [] [] [] "P1").overall_score = 50 ∧
    (calculate_esg_score [] [] [] "P1").certification_level = "Standard" :=
  empty_log_baseline [] [] [] "P1" rfl rfl rfl

/-- Counterexample to C3 as stated: with `percentage` present but 0 the
value is the flat amount (28), not cost × 0/100 = 0; and with a nonzero
percentage but `max_amount` present and 0 the cap is not applied. -/
theorem c3_counterexample :
    calculate_incentive_value incPctZero 100000 none ≠ 100000 * ((0 : ℚ) / 100) ∧
    calculate_incentive_value incCapZero 100 none ≠ min (100 * ((50 : ℚ) / 100)) 0 := by
  constructor <;> decide

/-- Claim C3 (amended): for every incentive whose percentage is set and
nonzero, value = cost × percentage/100; when max_amount is set and
nonzero, value = min(cost × percentage/100, max_amount). -/
theorem percentage_value_formula (inc : IncentiveOpportunity) (cost : ℚ)
    (size : Option ℚ) (p : ℚ) (hp : inc.percentage = some p) (hpnz : p ≠ 0) :
    (inc.max_amount = none → calculate_incentive_value inc cost size = cost * (p / 100)) ∧
    (∀ m, inc.max_amount = some m → m ≠ 0 →
      calculate_incentive_value inc cost size = min (cost * (p / 100)) m) := by
  constructor
  · intro hm
    simp [calculate_incentive_value, optTruthy, hp, hpnz, hm]
  · intro m hm hmnz
    simp [calculate_incentive_value, optTruthy, hp, hpnz, hm, hmnz]

/-- Witness for the amended C3 claim: the two worked examples of the spec. -/
theorem percentage_value_formula_witness :
    calculate_incentive_value itcSolar 100000 none = 30000 ∧
    calculate_incentive_value pct100Cap5000 100000 none = 5000 := by
  constructor
  · have h := (percentage_value_formula itcSolar 100000 none 30 rfl (by norm_num)).1 rfl
    rw [h]; norm_num
  · have h := (percentage_value_formula pct100Cap5000 100000 none 100 rfl
      (by norm_num)).2 5000 rfl (by norm_num)
    rw [h]; norm_num

/-- Claim C10: `calculate_incentive_value` selects branches by truthiness:
`percentage = 0` behaves exactly like an absent percentage, a supplied
`project_size` of 0 selects the flat-amount branch, and a zero amount
yields 0 from the flat-amount branch. -/
theorem truthy_branch_selection :
    (∀ (inc : IncentiveOpportunity) (cost : ℚ) (size : Option ℚ),
      inc.percentage = some 0 →
      calculate_incentive_value inc cost size =
        calculate_incentive_value { inc with percentage := none } cost size) ∧
    (∀ (inc : IncentiveOpportunity) (cost : ℚ),
      optTruthy inc.percentage = false →
      calculate_incentive_value inc cost (some 0) = inc.amount) ∧
    (∀ (inc : IncentiveOpportunity) (cost : ℚ) (size : Option ℚ),
      optTruthy inc.percentage = false → inc.amount = 0 →
      calculate_incentive_value inc cost size = 0) := by
  refine ⟨?_, ?_, ?_⟩
  · intro inc cost size h
    simp [calculate_incentive_value, optTruthy, h]
  · intro inc cost h
    unfold calculate_incentive_value
    rw [h]
    simp [optTruthy]
  · intro inc cost size h h0
    simp [calculate_incentive_value, h, h0]

/-- Witness for C10 at concrete incentives. -/
theorem truthy_branch_selection_witness :
    calculate_incentive_value incPctZero 100000 none =
      calculate_incentive_value { incPctZero with percentage := none } 100000 none ∧
    calculate_incentive_value { baseInc with amount := 28 } 500 (some 0) = 28 ∧
    calculate_incentive_value { baseInc with amount := 0 } 500 (some 7) = 0 :=
  ⟨truthy_branch_selection.1 incPctZero 100000 none rfl,
   truthy_branch_selection.2.1 { baseInc with amount := 28 } 500 (by decide),
   truthy_branch_selection.2.2 { baseInc with amount := 0 } 500 (some 7) (by decide) rfl⟩

/-- Counterexample to C2 as stated: three core operations raise uncaught
exceptions (modelled as `none`): waste diversion with `total_waste = 0`,
local hiring with `total_workers = 0`, and incentive lookup with the
optional `state` field missing. -/
theorem c2_counterexample :
    (track_waste_diversion "P1" 0 0 5).isSome = false ∧
    (track_local_hiring "P1" 0 0 3).isSome = false ∧
    (calculate_available_incentives theCatalog emptyPD 20251012).isSome = false :=
  ⟨rfl, rfl, rfl⟩

/-- Claim C2 (amended): the same operations do return explicit results
whenever their implicit guards hold: nonzero `total_waste`, nonzero
`total_workers`, and a present `state` field. -/
theorem guarded_ops_return_results :
    (∀ (pid : String) (now : ℕ) (total_waste diverted_waste : ℚ), total_waste ≠ 0 →
      (track_waste_diversion pid now total_waste diverted_waste).isSome = true) ∧
    (∀ (pid : String) (now : ℕ) (total_workers local_workers : ℚ), total_workers ≠ 0 →
      (track_local_hiring pid now total_workers local_workers).isSome = true) ∧
    (∀ (cat : Catalog) (pd : ProjectData) (today : ℕ) (st : String), pd.state = some st →
      (calculate_available_incentives cat pd today).isSome = true) := by
  refine ⟨?_, ?_, ?_⟩
  · intro pid now total diverted h
    simp [track_waste_diversion, h]
  · intro pid now tw lw h
    simp [track_local_hiring, h]
  · intro cat pd today st h
    simp [calculate_available_incentives, h]

/-- Witness for the amended C2 claim at concrete inputs. -/
theorem guarded_ops_return_results_witness :
    (track_waste_diversion "P1" 0 10 5).isSome = true ∧
    (track_local_hiring "P1" 0 10 8).isSome = true ∧
    (calculate_available_incentives theCatalog pdCost 20251012).isSome = true :=
  ⟨guarded_ops_return_results.1 "P1" 0 10 5 (by norm_num),
   guarded_ops_return_results.2.1 "P1" 0 10 8 (by norm_num),
   guarded_ops_return_results.2.2 theCatalog pdCost 20251012 "ZZ" rfl⟩

/-- Claim C8: every produced report satisfies
`net_project_cost = project_cost − total_incentive_value` and
`roi_improvement = total_incentive_value / project_cost × 100` when the
cost is positive, 0 otherwise (division by zero is defined as 0). -/
theorem report_net_roi (cat : Catalog) (pd : ProjectData) (current_date now : ℕ)
    (r : Report)
    (h : process_project_esg_incentives cat pd current_date now = some r) :
    r.net_project_cost = pd.project_cost.getD 0 - r.total_incentive_value ∧
    r.roi_improvement =
      (if pd.project_cost.getD 0 > 0
       then r.total_incentive_value / pd.project_cost.getD 0 * 100 else 0) := by
  unfold process_project_esg_incentives at h
  split at h
  · exact absurd h (by simp)
  · split at h
    · exact absurd h (by simp)
    · injection h with h2
      subst h2
      exact ⟨rfl, rfl⟩

/-- Witness for C8: the report produced for `pdCost` (cost 1000). -/
theorem report_net_roi_witness :
    sampleReport.net_project_cost =
      pdCost.project_cost.getD 0 - sampleReport.total_incentive_value ∧
    sampleReport.roi_improvement =
      (if pdCost.project_cost.getD 0 > 0
       then sampleReport.total_incentive_value / pdCost.project_cost.getD 0 * 100 else 0) :=
  report_net_roi theCatalog pdCost 20251012 0 sampleReport (by decide)

lemma envIncrement_nonneg (m : ESGMetric) (h : 0 ≤ m.value) : 0 ≤ envIncrement m := by
  unfold envIncrement
  have hb : (0 : ℚ) ≤ (if m.third_party_verified then 2 else 0) := by
    split <;> norm_num
  have hc : (0 : ℚ) ≤
      (if m.metric_name = "energy_efficiency_improvement" then min 20 (m.value * (1/2))
       else if strHasSub m.metric_name "renewable_energy" then 15
       else if m.metric_name = "water_efficiency_improvement" then min 10 (m.value * (3/10))
       else if m.metric_name = "waste_diversion_rate" then min 15 (m.value * (1/5))
       else 0) := by
    split_ifs <;> (try norm_num) <;> linarith
  linarith

lemma socialIncrement_nonneg (m : ESGMetric) (h : 0 ≤ m.value) : 0 ≤ socialIncrement m := by
  unfold socialIncrement
  split_ifs <;> (try norm_num) <;> linarith

lemma govIncrement_nonneg (m : ESGMetric) (h : 0 ≤ m.value) : 0 ≤ govIncrement m := by
  unfold govIncrement
  split_ifs <;> (try norm_num) <;> linarith

lemma score_shape_le (f : ESGMetric → ℚ) (ms : List ESGMetric) :
    (if ms.isEmpty then (50 : ℚ) else min 100 (50 + (ms.map f).sum)) ≤ 100 := by
  split
  · norm_num
  · exact min_le_left _ _

lemma score_shape_nonneg (f : ESGMetric → ℚ) (ms : List ESGMetric)
    (hf : ∀ m ∈ ms, 0 ≤ f m) :
    0 ≤ (if ms.isEmpty then (50 : ℚ) else min 100 (50 + (ms.map f).sum)) := by
  split
  · norm_num
  · refine le_min (by norm_num) ?_
    have hs : 0 ≤ (ms.map f).sum := List.sum_nonneg (by
      intro x hx
      obtain ⟨m, hm, rfl⟩ := List.mem_map.1 hx
      exact hf m hm)
    linarith

/-- Counterexample to C1 as stated: a single environmental metric with a
negative value (as `track_energy_efficiency` records when actual usage
exceeds the baseline) drives the environmental score to −450, outside
[0,100], because the engine only clamps from above. -/
theorem c1_counterexample :
    (calculate_esg_score [mNegEff] [] [] "P1").environmental_score < 0 := by
  decide

/-- Claim C1 (amended): every category score and the overall score are at
most 100 unconditionally; and when every recorded metric value is
nonnegative, every category score and the overall score lie in [0,100]. -/
theorem esg_score_bounds (envLog socialLog govLog : List ESGMetric) (pid : String) :
    ((calculate_esg_score envLog socialLog govLog pid).environmental_score ≤ 100 ∧
     (calculate_esg_score envLog socialLog govLog pid).social_score ≤ 100 ∧
     (calculate_esg_score envLog socialLog govLog pid).governance_score ≤ 100 ∧
     (calculate_esg_score envLog socialLog govLog pid).overall_score ≤ 100) ∧
    ((∀ m ∈ envLog, 0 ≤ m.value) → (∀ m ∈ socialLog, 0 ≤ m.value) →
     (∀ m ∈ govLog, 0 ≤ m.value) →
     (0 ≤ (calculate_esg_score envLog socialLog govLog pid).environmental_score ∧
      0 ≤ (calculate_esg_score envLog socialLog govLog pid).social_score ∧
      0 ≤ (calculate_esg_score envLog socialLog govLog pid).governance_score ∧
      0 ≤ (calculate_esg_score envLog socialLog govLog pid).overall_score)) := by
  have he : calculate_environmental_score
      (envLog.filter (fun m => m.project_id == pid)) ≤ 100 :=
    score_shape_le envIncrement _
  have hs : calculate_social_score
      (socialLog.filter (fun m => m.project_id == pid)) ≤ 100 :=
    score_shape_le socialIncrement _
  have hg : calculate_governance_score
      (govLog.filter (fun m => m.project_id == pid)) ≤ 100 :=
    score_shape_le govIncrement _
  constructor
  · refine ⟨he, hs, hg, ?_⟩
    show calculate_environmental_score
        (envLog.filter (fun m => m.project_id == pid)) * (2/5) +
      calculate_social_score
        (socialLog.filter (fun m => m.project_id == pid)) * (7/20) +
      calculate_governance_score
        (govLog.filter (fun m => m.project_id == pid)) * (1/4) ≤ 100
    linarith
  · intro hE hS hG
    have he0 : 0 ≤ calculate_environmental_score
        (envLog.filter (fun m => m.project_id == pid)) :=
      score_shape_nonneg envIncrement _ (by
        intro m hm
        exact envIncrement_nonneg m (hE m (List.mem_of_mem_filter hm)))
    have hs0 : 0 ≤ calculate_social_score
        (socialLog.filter (fun m => m.project_id == pid)) :=
      score_shape_nonneg socialIncrement _ (by
        intro m hm
        exact socialIncrement_nonneg m (hS m (List.mem_of_mem_filter hm)))
    have hg0 : 0 ≤ calculate_governance_score
        (govLog.filter (fun m => m.project_id == pid)) :=
      score_shape_nonneg govIncrement _ (by
        intro m hm
        exact govIncrement_nonneg m (hG m (List.mem_of_mem_filter hm)))
    refine ⟨he0, hs0, hg0, ?_⟩
    show 0 ≤ calculate_environmental_score
        (envLog.filter (fun m => m.project_id == pid)) * (2/5) +
      calculate_social_score
        (socialLog.filter (fun m => m.project_id == pid)) * (7/20) +
      calculate_governance_score
        (govLog.filter (fun m => m.project_id == pid)) * (1/4)
    linarith

/-- Witness for the amended C1 claim at empty logs. -/
theorem esg_score_bounds_witness :
    ((calculate_esg_score [] [] [] "P1").environmental_score ≤ 100 ∧
     (calculate_esg_score [] [] [] "P1").social_score ≤ 100 ∧
     (calculate_esg_score [] [] [] "P1").governance_score ≤ 100 ∧
     (calculate_esg_score [] [] [] "P1").overall_score ≤ 100) ∧
    (0 ≤ (calculate_esg_score [] [] [] "P1").environmental_score ∧
     0 ≤ (calculate_esg_score [] [] [] "P1").social_score ∧
     0 ≤ (calculate_esg_score [] [] [] "P1").governance_score ∧
     0 ≤ (calculate_esg_score [] [] [] "P1").overall_score) :=
  ⟨(esg_score_bounds [] [] [] "P1").1,
   (esg_score_bounds [] [] [] "P1").2 (by simp) (by simp) (by simp)⟩

end ESGTracker
